import Mathlib

/-!
Verification of the dice-accumulation MDP demo.

The repository builds a finite MDP for a "push your luck" dice game
(roll a die, accumulate the sum, stop to bank it, bust past `max_score`),
solves it by value iteration, and propagates state distributions under the
resulting policy.  We embed the model-building and propagation code in exact
rational arithmetic and prove the spec's invariants and published results.
-/

set_option linter.unusedVariables false
set_option linter.unnecessarySeqFocus false

namespace MdpDemo

/-- First filling pass of `make_transition_matrix` (src/mdp_demo.ipynb): the
entry written at `T[0, s, j]` by the double loop
`for s in range(0, S-1): for sprime in range(s+1, S-1): if sprime <= s + n_sides`,
namely `1/n_sides` when `s + 1 ≤ j`, `j ≤ max_score` (i.e. `j < S - 1`) and
`j ≤ s + n_sides`, and `0` otherwise. -/
def rollFill (n_sides max_score s j : ℕ) : ℚ :=
  if s + 1 ≤ j ∧ j ≤ max_score ∧ j ≤ s + n_sides then 1 / (n_sides : ℚ) else 0

/-- The row sum `T[0, s].sum()` taken by `make_transition_matrix` right before
it writes the terminal column: at that point row `s` holds exactly the
`rollFill` entries (the terminal column is still `0`). -/
def rollRowFillSum (n_sides max_score s : ℕ) : ℚ :=
  ∑ j ∈ Finset.range (max_score + 2), rollFill n_sides max_score s j

/-- Shallow embedding of `make_transition_matrix(n_sides, max_score)` from
`src/mdp_demo.ipynb`, as the entry map `(a, s, j) ↦ T[a, s, j]` with
`S = max_score + 2` states and terminal index `S - 1 = max_score + 1`.
Action `0` is "roll" (CONTINUE), action `1` is "stay" (STOP):

* roll rows: in-range targets get `rollFill`; the terminal column gets the
  residual `1 - T[0, s].sum()`; the terminal row is absorbing
  (`T[0, S-1, S-1] = 1`);
* stay rows: all mass on the terminal column (`T[1, :, S-1] = 1`);
* the outer `max 0` is the final clamp `T[T < 0] = 0`. -/
def make_transition_matrix (n_sides max_score : ℕ) (a s j : ℕ) : ℚ :=
  max 0
    (if a = 0 then
      if s = max_score + 1 then (if j = max_score + 1 then 1 else 0)
      else if j = max_score + 1 then 1 - rollRowFillSum n_sides max_score s
      else rollFill n_sides max_score s j
    else if j = max_score + 1 then 1 else 0)

/-- Shallow embedding of `make_reward_matrix(max_score)` from
`src/mdp_demo.ipynb`: `R` is zero except that
`R[s, 1] = s` for every non-terminal state `s` (the loop
`for s in range(0, S-1): R[s,1] = s`). -/
def make_reward_matrix (max_score : ℕ) (s a : ℕ) : ℚ :=
  if a = 1 ∧ s ≤ max_score then (s : ℚ) else 0

/-- The fixed-policy transition matrix `T_[s, j] = T[policy[s], s, j]` built at
the top of `calculate_state_distribution` (src/mdp_demo.ipynb). -/
def policyMatrix (policy : List ℕ) (T : ℕ → ℕ → ℕ → ℚ)
    (s j : ℕ) : ℚ :=
  T (policy.getD s 0) s j

/-- One propagation step of `calculate_state_distribution`:
`rho[:,:,t] = np.einsum("ji,kj->ki", T_, rho[:,:,t-1])`, i.e.
`rho'[k, i] = Σ_j T_[j, i] * rho[k, j]`. -/
def rhoStep (S : ℕ) (Tpi : ℕ → ℕ → ℚ) (prev : ℕ → ℕ → ℚ)
    (k i : ℕ) : ℚ :=
  ∑ j ∈ Finset.range S, Tpi j i * prev k j

/-- The time-indexed slices of the `rho` array of
`calculate_state_distribution`: `rho[s, s, 0] = 1` (zero elsewhere), then the
`rhoStep` recurrence for each later `t`. -/
def rhoSeq (S : ℕ) (Tpi : ℕ → ℕ → ℚ) : ℕ → ℕ → ℕ → ℚ
  | 0 => fun k s => if s = k then 1 else 0
  | t + 1 => rhoStep S Tpi (rhoSeq S Tpi t)

/-- Shallow embedding of `calculate_state_distribution(policy, T, t_max)` from
`src/mdp_demo.ipynb`, as the entry map `(s0, s, t) ↦ rho[s0, s, t]` with
`S = len(policy)`.  The returned array holds entries for `0 ≤ t ≤ t_max`;
the embedding extends the same recurrence to all `t`. -/
def calculate_state_distribution (policy : List ℕ) (T : ℕ → ℕ → ℕ → ℚ)
    (t_max : ℕ) (s0 s t : ℕ) : ℚ :=
  rhoSeq policy.length (policyMatrix policy T) t s0 s

/-- Modelled from the spec: the Q-value
`Q(s,a) = R(s,a) + discount * Σ_j T(a,s,j) * V(j)` of the Value Iteration
Solver (§4.2).  The solver itself is `mdp.ValueIteration` from the
third-party `pymdptoolbox` package, which is imported by the notebook but is
not part of `src/`. -/
def bellmanQ (T : ℕ → ℕ → ℕ → ℚ) (R : ℕ → ℕ → ℚ) (discount : ℚ)
    (V : List ℚ) (s a : ℕ) : ℚ :=
  R s a + discount * ∑ j ∈ Finset.range V.length, T a s j * V.getD j 0

/-- Modelled from the spec: one Bellman-optimality sweep
`V_k(s) = max_a Q(s, a)` over the two actions. -/
def bellmanV (T : ℕ → ℕ → ℕ → ℚ) (R : ℕ → ℕ → ℚ) (discount : ℚ)
    (V : List ℚ) : List ℚ :=
  (List.range V.length).map fun s =>
    max (bellmanQ T R discount V s 0) (bellmanQ T R discount V s 1)

/-- Modelled from the spec: the greedy policy `π_k(s) = argmax_a Q(s, a)` with
ties broken toward the lower-indexed action. -/
def bellmanPolicy (T : ℕ → ℕ → ℕ → ℚ) (R : ℕ → ℕ → ℚ) (discount : ℚ)
    (V : List ℚ) : List ℕ :=
  (List.range V.length).map fun s =>
    if bellmanQ T R discount V s 0 < bellmanQ T R discount V s 1 then 1 else 0

/-- Modelled from the spec: the solver's convergence measure at
`discount = 1` — the maximum absolute componentwise change between two
successive value vectors. -/
def maxAbsDiff (xs ys : List ℚ) : ℚ :=
  ((xs.zip ys).map fun p => |p.1 - p.2|).foldr max 0

/-- Modelled from the spec: the result record of the Value Iteration Solver —
value function, policy, iteration count, convergence flag. -/
structure VIResult where
  V : List ℚ
  policy : List ℕ
  iterations : ℕ
  converged : Bool
deriving DecidableEq, Repr

/-- Modelled from the spec: the main loop of the Value Iteration Solver
(§4.2).  Each iteration applies the Bellman sweep, stops converged when the
maximum absolute change is at most the threshold, and stops with
`converged = false` when the iteration cap (the fuel) runs out. -/
def viLoop (T : ℕ → ℕ → ℕ → ℚ) (R : ℕ → ℕ → ℚ) (discount thresh : ℚ) :
    ℕ → List ℚ → ℕ → VIResult
  | 0, V, iter => ⟨V, bellmanPolicy T R discount V, iter, false⟩
  | fuel + 1, V, iter =>
    if maxAbsDiff (bellmanV T R discount V) V ≤ thresh then
      ⟨bellmanV T R discount V, bellmanPolicy T R discount V, iter + 1, true⟩
    else
      viLoop T R discount thresh fuel (bellmanV T R discount V) (iter + 1)

/-- Modelled from the spec: the Value Iteration Solver contract
`solve(T, R, discount, epsilon, max_iter)` (§4.2), starting from
`V_0 = 0` with the convergence threshold
`epsilon * (1 - discount) / discount` for `discount < 1` and `epsilon`
for `discount = 1`. -/
def valueIteration (T : ℕ → ℕ → ℕ → ℚ) (R : ℕ → ℕ → ℚ)
    (discount epsilon : ℚ) (S max_iter : ℕ) : VIResult :=
  viLoop T R discount
    (if discount < 1 then epsilon * (1 - discount) / discount else epsilon)
    max_iter (List.replicate S 0) 0

/-- The published example solved in `src/mdp_demo.ipynb`:
`n_sides = 20`, `max_score = 21` (23 states), `discount = 1`,
`epsilon = 0.001`, `max_iter = 1000`. -/
def exampleResult : VIResult :=
  valueIteration (make_transition_matrix 20 21) (make_reward_matrix 21)
    1 (1 / 1000) 23 1000

/-- Embedding of the run of `make_transition_matrix` on natural-number
arguments as a fallible call: the source performs no parameter validation,
and on natural-number inputs its only runtime failure is the
`ZeroDivisionError` raised by `p = 1/n_sides` when `n_sides = 0`. -/
def make_transition_matrix_checked (n_sides max_score : ℕ) :
    Option (ℕ → ℕ → ℕ → ℚ) :=
  if n_sides = 0 then none else some (make_transition_matrix n_sides max_score)

/-- Value vector `V_0 = 0` of the published example. -/
def exV0 : List ℚ := List.replicate 23 0

/-- Value vector after sweep 1 of the published example. -/
def exV1 : List ℚ := [(0 : ℚ), (1 : ℚ), (2 : ℚ), (3 : ℚ), (4 : ℚ), (5 : ℚ), (6 : ℚ), (7 : ℚ), (8 : ℚ), (9 : ℚ), (10 : ℚ), (11 : ℚ), (12 : ℚ), (13 : ℚ), (14 : ℚ), (15 : ℚ), (16 : ℚ), (17 : ℚ), (18 : ℚ), (19 : ℚ), (20 : ℚ), (21 : ℚ), (0 : ℚ)]

/-- Value vector after sweep 2 of the published example. -/
def exV2 : List ℚ := [((21 : ℚ)/2), ((23 : ℚ)/2), ((57 : ℚ)/5), ((45 : ℚ)/4), ((221 : ℚ)/20), ((54 : ℚ)/5), ((21 : ℚ)/2), ((203 : ℚ)/20), ((39 : ℚ)/4), ((93 : ℚ)/10), (10 : ℚ), (11 : ℚ), (12 : ℚ), (13 : ℚ), (14 : ℚ), (15 : ℚ), (16 : ℚ), (17 : ℚ), (18 : ℚ), (19 : ℚ), (20 : ℚ), (21 : ℚ), (0 : ℚ)]

/-- Value vector after sweep 3 of the published example. -/
def exV3 : List ℚ := [((2607 : ℚ)/200), ((1351 : ℚ)/100), ((647 : ℚ)/50), ((4951 : ℚ)/400), ((473 : ℚ)/40), ((2257 : ℚ)/200), ((269 : ℚ)/25), ((4101 : ℚ)/400), ((1953 : ℚ)/200), ((93 : ℚ)/10), (10 : ℚ), (11 : ℚ), (12 : ℚ), (13 : ℚ), (14 : ℚ), (15 : ℚ), (16 : ℚ), (17 : ℚ), (18 : ℚ), (19 : ℚ), (20 : ℚ), (21 : ℚ), (0 : ℚ)]

/-- Value vector after sweep 4 of the published example. -/
def exV4 : List ℚ := [((53403 : ℚ)/4000), ((54901 : ℚ)/4000), ((52313 : ℚ)/4000), ((3987 : ℚ)/320), ((18989 : ℚ)/1600), ((90431 : ℚ)/8000), ((86127 : ℚ)/8000), ((41013 : ℚ)/4000), ((1953 : ℚ)/200), ((93 : ℚ)/10), (10 : ℚ), (11 : ℚ), (12 : ℚ), (13 : ℚ), (14 : ℚ), (15 : ℚ), (16 : ℚ), (17 : ℚ), (18 : ℚ), (19 : ℚ), (20 : ℚ), (21 : ℚ), (0 : ℚ)]

/-- Value vector after sweep 5 of the published example. -/
def exV5 : List ℚ := [((267519 : ℚ)/20000), ((43967 : ℚ)/3200), ((523431 : ℚ)/40000), ((1994049 : ℚ)/160000), ((59347 : ℚ)/5000), ((1808673 : ℚ)/160000), ((861273 : ℚ)/80000), ((41013 : ℚ)/4000), ((1953 : ℚ)/200), ((93 : ℚ)/10), (10 : ℚ), (11 : ℚ), (12 : ℚ), (13 : ℚ), (14 : ℚ), (15 : ℚ), (16 : ℚ), (17 : ℚ), (18 : ℚ), (19 : ℚ), (20 : ℚ), (21 : ℚ), (0 : ℚ)]

/-- Value vector after sweep 6 of the published example. -/
def exV6 : List ℚ := [((21403683 : ℚ)/1600000), ((5496127 : ℚ)/400000), ((10468823 : ℚ)/800000), ((39881243 : ℚ)/3200000), ((37982139 : ℚ)/3200000), ((18086733 : ℚ)/1600000), ((861273 : ℚ)/80000), ((41013 : ℚ)/4000), ((1953 : ℚ)/200), ((93 : ℚ)/10), (10 : ℚ), (11 : ℚ), (12 : ℚ), (13 : ℚ), (14 : ℚ), (15 : ℚ), (16 : ℚ), (17 : ℚ), (18 : ℚ), (19 : ℚ), (20 : ℚ), (21 : ℚ), (0 : ℚ)]

/-- Value vector after sweep 7 of the published example, at which the run
converges (the maximum absolute change from sweep 6 is below 1/1000). -/
def exV7 : List ℚ := [((214037619 : ℚ)/16000000), ((43969073 : ℚ)/3200000), ((104688271 : ℚ)/8000000), ((31904997 : ℚ)/2560000), ((379821393 : ℚ)/32000000), ((18086733 : ℚ)/1600000), ((861273 : ℚ)/80000), ((41013 : ℚ)/4000), ((1953 : ℚ)/200), ((93 : ℚ)/10), (10 : ℚ), (11 : ℚ), (12 : ℚ), (13 : ℚ), (14 : ℚ), (15 : ℚ), (16 : ℚ), (17 : ℚ), (18 : ℚ), (19 : ℚ), (20 : ℚ), (21 : ℚ), (0 : ℚ)]

/-- Final greedy policy of the published example: roll on states 0..9, stay
on states 10..21, tie broken to roll on the terminal state 22. -/
def exPol : List ℕ := [0, 0, 0, 0, 0, 0, 0, 0, 0, 0, 1, 1, 1, 1, 1, 1, 1, 1, 1, 1, 1, 1, 0]

attribute [local semireducible] Rat.add Rat.sub Rat.mul Rat.inv

set_option maxRecDepth 100000

/-- One non-converged step of the solver loop rewrites to the recursive call
on the freshly swept value vector. -/
lemma viLoop_step {T : ℕ → ℕ → ℕ → ℚ} {R : ℕ → ℕ → ℚ} {d : ℚ} (th : ℚ)
    (fuel fuel2 : ℕ) (hf : fuel = fuel2 + 1) (iter iter2 : ℕ)
    (hi : iter2 = iter + 1) {V Vn : List ℚ}
    (hV : bellmanV T R d V = Vn) (hnc : ¬ maxAbsDiff Vn V ≤ th) :
    viLoop T R d th fuel V iter = viLoop T R d th fuel2 Vn iter2 := by
  subst hf
  subst hi
  subst hV
  simp only [viLoop, if_neg hnc]

/-- A converged step of the solver loop returns the swept value vector, the
greedy policy, the incremented iteration count and the `true` flag. -/
lemma viLoop_stop {T : ℕ → ℕ → ℕ → ℚ} {R : ℕ → ℕ → ℚ} {d : ℚ} (th : ℚ)
    (fuel fuel2 : ℕ) (hf : fuel = fuel2 + 1) (iter iter2 : ℕ)
    (hi : iter2 = iter + 1) {V Vn : List ℚ} {P : List ℕ}
    (hV : bellmanV T R d V = Vn) (hc : maxAbsDiff Vn V ≤ th)
    (hP : bellmanPolicy T R d V = P) :
    viLoop T R d th fuel V iter = ⟨Vn, P, iter2, true⟩ := by
  subst hf
  subst hi
  subst hV
  subst hP
  simp only [viLoop, if_pos hc]

/-- Sweep 1 of the published example. -/
lemma exBell0 : bellmanV (make_transition_matrix 20 21) (make_reward_matrix 21) 1 exV0 = exV1 := by decide

/-- Sweep 1 has not yet converged. -/
lemma exNoConv0 : ¬ maxAbsDiff exV1 exV0 ≤ (1 / 1000 : ℚ) := by decide

/-- Sweep 2 of the published example. -/
lemma exBell1 : bellmanV (make_transition_matrix 20 21) (make_reward_matrix 21) 1 exV1 = exV2 := by decide

/-- Sweep 2 has not yet converged. -/
lemma exNoConv1 : ¬ maxAbsDiff exV2 exV1 ≤ (1 / 1000 : ℚ) := by decide

/-- Sweep 3 of the published example. -/
lemma exBell2 : bellmanV (make_transition_matrix 20 21) (make_reward_matrix 21) 1 exV2 = exV3 := by decide

/-- Sweep 3 has not yet converged. -/
lemma exNoConv2 : ¬ maxAbsDiff exV3 exV2 ≤ (1 / 1000 : ℚ) := by decide

/-- Sweep 4 of the published example. -/
lemma exBell3 : bellmanV (make_transition_matrix 20 21) (make_reward_matrix 21) 1 exV3 = exV4 := by decide

/-- Sweep 4 has not yet converged. -/
lemma exNoConv3 : ¬ maxAbsDiff exV4 exV3 ≤ (1 / 1000 : ℚ) := by decide

/-- Sweep 5 of the published example. -/
lemma exBell4 : bellmanV (make_transition_matrix 20 21) (make_reward_matrix 21) 1 exV4 = exV5 := by decide

/-- Sweep 5 has not yet converged. -/
lemma exNoConv4 : ¬ maxAbsDiff exV5 exV4 ≤ (1 / 1000 : ℚ) := by decide

/-- Sweep 6 of the published example. -/
lemma exBell5 : bellmanV (make_transition_matrix 20 21) (make_reward_matrix 21) 1 exV5 = exV6 := by decide

/-- Sweep 6 has not yet converged. -/
lemma exNoConv5 : ¬ maxAbsDiff exV6 exV5 ≤ (1 / 1000 : ℚ) := by decide

/-- Sweep 7 of the published example. -/
lemma exBell6 : bellmanV (make_transition_matrix 20 21) (make_reward_matrix 21) 1 exV6 = exV7 := by decide

/-- Sweep 7 converges: the largest componentwise change is below 1/1000. -/
lemma exConv6 : maxAbsDiff exV7 exV6 ≤ (1 / 1000 : ℚ) := by decide

/-- The greedy policy read off at the converged sweep. -/
lemma exPolEq : bellmanPolicy (make_transition_matrix 20 21) (make_reward_matrix 21) 1 exV6 = exPol := by decide

/-- The published example run fully evaluated: it converges after 7 sweeps to
the value vector `exV7` and the cutoff-at-10 policy `exPol`. -/
lemma exampleResult_eq : exampleResult = ⟨exV7, exPol, 7, true⟩ := by
  have h0 : exampleResult
      = viLoop (make_transition_matrix 20 21) (make_reward_matrix 21) 1
        (1 / 1000) 1000 exV0 0 := by
    unfold exampleResult valueIteration exV0
    norm_num
  rw [h0,
    viLoop_step (1 / 1000) 1000 999 rfl 0 1 rfl exBell0 exNoConv0,
    viLoop_step (1 / 1000) 999 998 rfl 1 2 rfl exBell1 exNoConv1,
    viLoop_step (1 / 1000) 998 997 rfl 2 3 rfl exBell2 exNoConv2,
    viLoop_step (1 / 1000) 997 996 rfl 3 4 rfl exBell3 exNoConv3,
    viLoop_step (1 / 1000) 996 995 rfl 4 5 rfl exBell4 exNoConv4,
    viLoop_step (1 / 1000) 995 994 rfl 5 6 rfl exBell5 exNoConv5,
    viLoop_stop (1 / 1000) 994 993 rfl 6 7 rfl exBell6 exConv6 exPolEq]

/-- C1: value iteration on the model built with `n_sides = 20`,
`max_score = 21`, `discount = 1`, `epsilon = 0.001` converges, and the
resulting optimal policy chooses CONTINUE (roll, action 0) for every state
`s` with `0 ≤ s ≤ 9` and STOP (stay, action 1) for every state `s` with
`10 ≤ s ≤ 21`: a monotonic policy with a single switch point at 10. -/
theorem valueIteration_example_policy :
    exampleResult.converged = true ∧
    (∀ s, s ≤ 9 → exampleResult.policy.getD s 2 = 0) ∧
    (∀ s, s ≤ 21 → 10 ≤ s → exampleResult.policy.getD s 2 = 1) := by
  rw [exampleResult_eq]
  refine ⟨rfl, ?_, ?_⟩ <;> decide

/-- Witness for C1 at the concrete states 5 and 15. -/
theorem valueIteration_example_policy_witness :
    exampleResult.policy.getD 5 2 = 0 ∧ exampleResult.policy.getD 15 2 = 1 :=
  ⟨valueIteration_example_policy.2.1 5 (by norm_num),
   valueIteration_example_policy.2.2 15 (by norm_num) (by norm_num)⟩

/-- C2: in the same published run, the computed optimal value function
satisfies `V s = s` exactly for every state `s` with `10 ≤ s ≤ 21`. -/
theorem valueIteration_example_value :
    ∀ s, s ≤ 21 → 10 ≤ s → exampleResult.V.getD s 0 = (s : ℚ) := by
  rw [exampleResult_eq]
  decide

/-- Witness for C2 at the concrete state 15. -/
theorem valueIteration_example_value_witness :
    exampleResult.V.getD 15 0 = ((15 : ℕ) : ℚ) :=
  valueIteration_example_value 15 (by norm_num) (by norm_num)

/-- C5: for positive `n_sides` and `max_score`, the terminal state
`max_score + 1` is absorbing under both actions. -/
theorem make_transition_matrix_absorbing (n_sides max_score : ℕ)
    (hn : 1 ≤ n_sides) (hm : 1 ≤ max_score) :
    make_transition_matrix n_sides max_score 0 (max_score + 1) (max_score + 1) = 1 ∧
    make_transition_matrix n_sides max_score 1 (max_score + 1) (max_score + 1) = 1 := by
  unfold make_transition_matrix
  norm_num

/-- Witness for C5 at the published parameters (terminal state 22). -/
theorem make_transition_matrix_absorbing_witness :
    make_transition_matrix 20 21 0 22 22 = 1 ∧
    make_transition_matrix 20 21 1 22 22 = 1 :=
  make_transition_matrix_absorbing 20 21 (by norm_num) (by norm_num)

/-- C7: for positive `max_score`, the reward matrix satisfies
`R[s, STOP] = s` for every non-terminal state `s`, `R[terminal, STOP] = 0`,
and `R[s, CONTINUE] = 0` for every state `s` (terminal included). -/
theorem make_reward_matrix_spec (max_score : ℕ) (hm : 1 ≤ max_score) :
    (∀ s, s ≤ max_score → make_reward_matrix max_score s 1 = (s : ℚ)) ∧
    make_reward_matrix max_score (max_score + 1) 1 = 0 ∧
    (∀ s, make_reward_matrix max_score s 0 = 0) := by
  refine ⟨fun s hs => ?_, ?_, fun s => ?_⟩ <;>
    simp [make_reward_matrix] <;> omega

/-- Witness for C7 at `max_score = 21`. -/
theorem make_reward_matrix_spec_witness :
    make_reward_matrix 21 5 1 = ((5 : ℕ) : ℚ) ∧
    make_reward_matrix 21 22 1 = 0 ∧
    make_reward_matrix 21 7 0 = 0 :=
  ⟨(make_reward_matrix_spec 21 (by norm_num)).1 5 (by norm_num),
   (make_reward_matrix_spec 21 (by norm_num)).2.1,
   (make_reward_matrix_spec 21 (by norm_num)).2.2 7⟩

/-- C8 counterexample: in the model built for `n_sides = 4`, `max_score = 5`
the state space has `max_score + 2 = 7` states and index 5 is NOT the
terminal state: it is not absorbing — the stay action moves state 5 to
state 6 (the actual terminal index) with probability 1 and keeps no mass on
state 5. -/
theorem small_example_index5_not_terminal :
    ¬ make_transition_matrix 4 5 1 5 5 = 1 ∧
    make_transition_matrix 4 5 1 5 6 = 1 := by
  decide

/-- C8 (amended): for `n_sides = 4`, `max_score = 5` the roll row of state 0
gives probability 1/4 to each of states 1, 2, 3, 4 and probability 0 to
state 5 — within the 7-state space where index 6 is the terminal state
(which is absorbing under both actions); the bust column of state 0 is
also 0. -/
theorem small_example_row0 :
    make_transition_matrix 4 5 0 0 1 = 1 / 4 ∧
    make_transition_matrix 4 5 0 0 2 = 1 / 4 ∧
    make_transition_matrix 4 5 0 0 3 = 1 / 4 ∧
    make_transition_matrix 4 5 0 0 4 = 1 / 4 ∧
    make_transition_matrix 4 5 0 0 5 = 0 ∧
    make_transition_matrix 4 5 0 0 6 = 0 ∧
    make_transition_matrix 4 5 0 6 6 = 1 ∧
    make_transition_matrix 4 5 1 6 6 = 1 := by
  decide

/-- C9 counterexample: `max_score = 0` is not a positive integer, yet the
Model Builder returns a result normally instead of failing. -/
theorem make_transition_matrix_no_validation :
    (make_transition_matrix_checked 5 0).isSome = true := by
  decide

/-- C9 (amended): the Model Builder performs no parameter validation: on
natural-number inputs it returns normally exactly when `n_sides ≠ 0` (the
`n_sides = 0` failure being a `ZeroDivisionError`, not an `InvalidParameter`
error); in particular it returns normally for every positive `n_sides`,
whether or not `max_score` is positive. -/
theorem make_transition_matrix_checked_isSome (n_sides max_score : ℕ) :
    (make_transition_matrix_checked n_sides max_score).isSome = true ↔ n_sides ≠ 0 := by
  unfold make_transition_matrix_checked
  split <;> simp_all

/-- Each fill-pass entry is nonnegative. -/
lemma rollFill_nonneg (n_sides max_score s j : ℕ) :
    0 ≤ rollFill n_sides max_score s j := by
  unfold rollFill
  split
  · positivity
  · exact le_refl 0

/-- The fill-pass row sum counts the in-range roll targets
`s + 1 .. min max_score (s + n_sides)`, each weighted `1/n_sides`. -/
lemma rollRowFillSum_eq (n_sides max_score s : ℕ) (hs : s ≤ max_score) :
    rollRowFillSum n_sides max_score s
      = ((min max_score (s + n_sides) - s : ℕ) : ℚ) / n_sides := by
  unfold rollRowFillSum rollFill
  rw [Finset.sum_ite, Finset.sum_const, Finset.sum_const_zero, add_zero,
    nsmul_eq_mul]
  have hcard : Finset.filter
      (fun j => s + 1 ≤ j ∧ j ≤ max_score ∧ j ≤ s + n_sides)
      (Finset.range (max_score + 2))
      = Finset.Icc (s + 1) (min max_score (s + n_sides)) := by
    ext j
    simp only [Finset.mem_filter, Finset.mem_range, Finset.mem_Icc, le_min_iff]
    omega
  rw [hcard, Nat.card_Icc]
  have h2 : min max_score (s + n_sides) + 1 - (s + 1)
      = min max_score (s + n_sides) - s := by omega
  rw [h2, mul_one_div]

/-- The fill-pass row sum is nonnegative. -/
lemma rollRowFillSum_nonneg (n_sides max_score s : ℕ) :
    0 ≤ rollRowFillSum n_sides max_score s := by
  unfold rollRowFillSum
  exact Finset.sum_nonneg fun j _ => rollFill_nonneg n_sides max_score s j

/-- At most `n_sides` targets are in range, so the fill-pass row sum never
exceeds 1 — hence the residual bust probability is never negative and the
final clamp `T[T < 0] = 0` is a no-op in exact arithmetic. -/
lemma rollRowFillSum_le_one (n_sides max_score s : ℕ) (hn : 1 ≤ n_sides)
    (hs : s ≤ max_score) :
    rollRowFillSum n_sides max_score s ≤ 1 := by
  rw [rollRowFillSum_eq n_sides max_score s hs]
  have hnpos : (0 : ℚ) < n_sides := by exact_mod_cast hn
  rw [div_le_one hnpos]
  have hle : min max_score (s + n_sides) - s ≤ n_sides := by omega
  exact_mod_cast hle

/-- A non-terminal roll entry equals its fill-pass value. -/
lemma make_transition_matrix_roll_fill (n_sides max_score s j : ℕ)
    (hs : s ≤ max_score) (hj : j ≠ max_score + 1) :
    make_transition_matrix n_sides max_score 0 s j
      = rollFill n_sides max_score s j := by
  unfold make_transition_matrix
  rw [if_pos rfl, if_neg (by omega : ¬ s = max_score + 1), if_neg hj]
  exact max_eq_right (rollFill_nonneg n_sides max_score s j)

/-- The bust column of a non-terminal roll row is the residual
`1 - T[0, s].sum()`. -/
lemma make_transition_matrix_roll_bust (n_sides max_score s : ℕ)
    (hn : 1 ≤ n_sides) (hs : s ≤ max_score) :
    make_transition_matrix n_sides max_score 0 s (max_score + 1)
      = 1 - rollRowFillSum n_sides max_score s := by
  unfold make_transition_matrix
  rw [if_pos rfl, if_neg (by omega : ¬ s = max_score + 1), if_pos rfl]
  refine max_eq_right ?_
  rw [sub_nonneg]
  exact rollRowFillSum_le_one n_sides max_score s hn hs

/-- The terminal roll row is the indicator of the terminal column. -/
lemma make_transition_matrix_roll_terminal_row (n_sides max_score j : ℕ) :
    make_transition_matrix n_sides max_score 0 (max_score + 1) j
      = if j = max_score + 1 then 1 else 0 := by
  unfold make_transition_matrix
  rw [if_pos rfl, if_pos rfl]
  split
  · exact max_eq_right zero_le_one
  · exact max_eq_right (le_refl 0)

/-- Every stay row is the indicator of the terminal column. -/
lemma make_transition_matrix_stay (n_sides max_score s j : ℕ) :
    make_transition_matrix n_sides max_score 1 s j
      = if j = max_score + 1 then 1 else 0 := by
  unfold make_transition_matrix
  rw [if_neg (by omega : ¬ (1 : ℕ) = 0)]
  split
  · exact max_eq_right zero_le_one
  · exact max_eq_right (le_refl 0)

/-- Summing the indicator of the terminal column over the state space
gives 1. -/
lemma indicator_terminal_row_sum (max_score : ℕ) :
    ∑ j ∈ Finset.range (max_score + 2),
      (if j = max_score + 1 then (1 : ℚ) else 0) = 1 := by
  rw [Finset.sum_ite_eq' (Finset.range (max_score + 2)) (max_score + 1)
    (fun _ => (1 : ℚ))]
  exact if_pos (Finset.mem_range.mpr (by omega))

/-- A non-terminal roll row sums to exactly 1: the fill entries plus the
residual bust probability. -/
lemma roll_row_sum (n_sides max_score s : ℕ) (hn : 1 ≤ n_sides)
    (hs : s ≤ max_score) :
    ∑ j ∈ Finset.range (max_score + 2),
      make_transition_matrix n_sides max_score 0 s j = 1 := by
  have hsplit : max_score + 2 = max_score + 1 + 1 := rfl
  rw [hsplit, Finset.sum_range_succ,
    make_transition_matrix_roll_bust n_sides max_score s hn hs]
  have hfill : ∑ j ∈ Finset.range (max_score + 1),
      make_transition_matrix n_sides max_score 0 s j
      = ∑ j ∈ Finset.range (max_score + 1), rollFill n_sides max_score s j := by
    refine Finset.sum_congr rfl fun j hj => ?_
    rw [Finset.mem_range] at hj
    exact make_transition_matrix_roll_fill n_sides max_score s j hs (by omega)
  have hsum : rollRowFillSum n_sides max_score s
      = ∑ j ∈ Finset.range (max_score + 1), rollFill n_sides max_score s j := by
    unfold rollRowFillSum
    rw [hsplit, Finset.sum_range_succ]
    have hz : rollFill n_sides max_score s (max_score + 1) = 0 := by
      unfold rollFill
      rw [if_neg (by omega)]
    rw [hz, add_zero]
  rw [hfill, ← hsum]
  ring

/-- No entry of the transition tensor exceeds 1 (for positive `n_sides`). -/
lemma make_transition_matrix_le_one (n_sides max_score a s j : ℕ)
    (hn : 1 ≤ n_sides) :
    make_transition_matrix n_sides max_score a s j ≤ 1 := by
  have hnpos : (0 : ℚ) < n_sides := by exact_mod_cast hn
  unfold make_transition_matrix
  refine max_le zero_le_one ?_
  split
  · split
    · split
      · exact le_refl 1
      · exact zero_le_one
    · split
      · have h0 := rollRowFillSum_nonneg n_sides max_score s
        linarith
      · unfold rollFill
        split
        · rw [div_le_one hnpos]
          exact_mod_cast hn
        · exact zero_le_one
  · split
    · exact le_refl 1
    · exact zero_le_one

/-- Every entry of the transition tensor is nonnegative (the final clamp
guarantees this outright). -/
lemma make_transition_matrix_nonneg (n_sides max_score a s j : ℕ) :
    0 ≤ make_transition_matrix n_sides max_score a s j := by
  unfold make_transition_matrix
  exact le_max_left 0 _

/-- C3: for every pair of positive integers `(n_sides, max_score)`, every row
of each action's transition matrix sums to 1 within tolerance `1e-9`, and
every entry lies in `[0, 1]`. -/
theorem make_transition_matrix_stochastic (n_sides max_score : ℕ)
    (hn : 1 ≤ n_sides) (hm : 1 ≤ max_score) :
    ∀ a, a < 2 → ∀ s, s < max_score + 2 →
      |(∑ j ∈ Finset.range (max_score + 2),
          make_transition_matrix n_sides max_score a s j) - 1|
        ≤ 1 / 1000000000 ∧
      ∀ j, j < max_score + 2 →
        0 ≤ make_transition_matrix n_sides max_score a s j ∧
        make_transition_matrix n_sides max_score a s j ≤ 1 := by
  intro a ha s hs
  have hrow : ∑ j ∈ Finset.range (max_score + 2),
      make_transition_matrix n_sides max_score a s j = 1 := by
    rcases (by omega : a = 0 ∨ a = 1) with rfl | rfl
    · rcases (by omega : s ≤ max_score ∨ s = max_score + 1) with hsm | rfl
      · exact roll_row_sum n_sides max_score s hn hsm
      · rw [Finset.sum_congr rfl fun j _ =>
          make_transition_matrix_roll_terminal_row n_sides max_score j]
        exact indicator_terminal_row_sum max_score
    · rw [Finset.sum_congr rfl fun j _ =>
        make_transition_matrix_stay n_sides max_score s j]
      exact indicator_terminal_row_sum max_score
  refine ⟨?_, fun j _ => ⟨make_transition_matrix_nonneg n_sides max_score a s j,
    make_transition_matrix_le_one n_sides max_score a s j hn⟩⟩
  rw [hrow]
  norm_num

/-- Witness for C3 at the published parameters, action roll, state 3. -/
theorem make_transition_matrix_stochastic_witness :
    |(∑ j ∈ Finset.range (21 + 2), make_transition_matrix 20 21 0 3 j) - 1|
        ≤ 1 / 1000000000 ∧
    0 ≤ make_transition_matrix 20 21 0 3 22 ∧
    make_transition_matrix 20 21 0 3 22 ≤ 1 :=
  ⟨(make_transition_matrix_stochastic 20 21 (by norm_num) (by norm_num)
      0 (by norm_num) 3 (by norm_num)).1,
   (make_transition_matrix_stochastic 20 21 (by norm_num) (by norm_num)
      0 (by norm_num) 3 (by norm_num)).2 22 (by norm_num)⟩

/-- C10: for positive parameters and any non-terminal state `s`, the bust
probability (the roll transition into the terminal state) equals
`max(0, s + n_sides - max_score) / n_sides`; in particular it is 0
whenever `s + n_sides ≤ max_score`. -/
theorem make_transition_matrix_bust_prob (n_sides max_score : ℕ)
    (hn : 1 ≤ n_sides) (hm : 1 ≤ max_score) :
    ∀ s, s ≤ max_score →
      make_transition_matrix n_sides max_score 0 s (max_score + 1)
        = max 0 ((s : ℚ) + n_sides - max_score) / n_sides ∧
      (s + n_sides ≤ max_score →
        make_transition_matrix n_sides max_score 0 s (max_score + 1) = 0) := by
  intro s hs
  have hnpos : (0 : ℚ) < n_sides := by exact_mod_cast hn
  have hmain : make_transition_matrix n_sides max_score 0 s (max_score + 1)
      = max 0 ((s : ℚ) + n_sides - max_score) / n_sides := by
    rw [make_transition_matrix_roll_bust n_sides max_score s hn hs,
      rollRowFillSum_eq n_sides max_score s hs]
    by_cases hc : s + n_sides ≤ max_score
    · have h1 : min max_score (s + n_sides) - s = n_sides := by omega
      have h2 : (s : ℚ) + n_sides - max_score ≤ 0 := by
        have hcast : ((s + n_sides : ℕ) : ℚ) ≤ max_score := by
          exact_mod_cast hc
        push_cast at hcast
        linarith
      rw [h1, max_eq_left h2, zero_div, div_self (ne_of_gt hnpos), sub_self]
    · have h1 : min max_score (s + n_sides) - s = max_score - s := by omega
      have h2 : ((max_score - s : ℕ) : ℚ) = (max_score : ℚ) - s :=
        Nat.cast_sub hs
      have h3 : (0 : ℚ) ≤ (s : ℚ) + n_sides - max_score := by
        have hcast : ((max_score : ℕ) : ℚ) ≤ ((s + n_sides : ℕ) : ℚ) := by
          exact_mod_cast (by omega : max_score ≤ s + n_sides)
        push_cast at hcast
        linarith
      rw [h1, h2, max_eq_right h3]
      field_simp
      ring
  refine ⟨hmain, fun hc => ?_⟩
  rw [hmain]
  have h2 : (s : ℚ) + n_sides - max_score ≤ 0 := by
    have hcast : ((s + n_sides : ℕ) : ℚ) ≤ max_score := by exact_mod_cast hc
    push_cast at hcast
    linarith
  rw [max_eq_left h2, zero_div]

/-- Witness for C10: from state 5 of the published model the bust probability
is `max(0, 5 + 20 - 21)/20 = 1/5`, and from state 0 of the small model
(`n_sides = 4`, `max_score = 5`) busting is impossible. -/
theorem make_transition_matrix_bust_prob_witness :
    make_transition_matrix 20 21 0 5 22
        = max 0 ((5 : ℚ) + 20 - 21) / 20 ∧
    make_transition_matrix 4 5 0 0 6 = 0 := by
  constructor
  · exact_mod_cast (make_transition_matrix_bust_prob 20 21 (by norm_num)
      (by norm_num) 5 (by norm_num)).1
  · exact (make_transition_matrix_bust_prob 4 5 (by norm_num) (by norm_num)
      0 (by norm_num)).2 (by norm_num)

/-- The total probability mass of the propagated distribution is preserved by
every step, provided each row of the fixed-policy matrix sums to 1. -/
lemma rhoSeq_mass (S : ℕ) (Tpi : ℕ → ℕ → ℚ)
    (hrow : ∀ j, j < S → ∑ i ∈ Finset.range S, Tpi j i = 1)
    (s0 : ℕ) (hs0 : s0 < S) :
    ∀ t, ∑ s ∈ Finset.range S, rhoSeq S Tpi t s0 s = 1 := by
  intro t
  induction t with
  | zero =>
    simp only [rhoSeq]
    rw [Finset.sum_ite_eq' (Finset.range S) s0 (fun _ => (1 : ℚ))]
    exact if_pos (Finset.mem_range.mpr hs0)
  | succ k ih =>
    simp only [rhoSeq, rhoStep]
    rw [Finset.sum_comm]
    have hinner : ∀ j ∈ Finset.range S,
        ∑ i ∈ Finset.range S, Tpi j i * rhoSeq S Tpi k s0 j
          = rhoSeq S Tpi k s0 j := by
      intro j hj
      rw [← Finset.sum_mul, hrow j (Finset.mem_range.mp hj), one_mul]
    rw [Finset.sum_congr rfl hinner, ih]

/-- C4: for any policy whose action indices are all in range and any
transition tensor satisfying the row-stochasticity invariant, the state
distribution returned by the Propagator sums to 1 over states, for every
start state and every time `t ≤ t_max`. -/
theorem calculate_state_distribution_mass (policy : List ℕ)
    (T : ℕ → ℕ → ℕ → ℚ) (t_max : ℕ)
    (hpol : ∀ s, s < policy.length → policy.getD s 0 < 2)
    (hT : ∀ a, a < 2 → ∀ s, s < policy.length →
      ∑ j ∈ Finset.range policy.length, T a s j = 1)
    (s0 : ℕ) (hs0 : s0 < policy.length) (t : ℕ) (ht : t ≤ t_max) :
    ∑ s ∈ Finset.range policy.length,
      calculate_state_distribution policy T t_max s0 s t = 1 := by
  unfold calculate_state_distribution
  refine rhoSeq_mass policy.length (policyMatrix policy T) ?_ s0 hs0 t
  intro j hj
  unfold policyMatrix
  exact hT (policy.getD j 0) (hpol j hj) j hj

/-- Witness for C4: the all-stay policy on the 3-state model with
`n_sides = 1`, `max_score = 1`, propagated one step from state 0. -/
theorem calculate_state_distribution_mass_witness :
    ∑ s ∈ Finset.range (List.length [1, 1, 1]),
      calculate_state_distribution [1, 1, 1] (make_transition_matrix 1 1)
        2 0 s 1 = 1 :=
  calculate_state_distribution_mass [1, 1, 1] (make_transition_matrix 1 1) 2
    (by decide) (by decide) 0 (by decide) 1 (by decide)

/-- C6: the Propagator computes exactly the specified linear recurrence:
the base case is the indicator of the start state, and each later slice is
the fixed-policy matrix applied to the previous slice. -/
theorem calculate_state_distribution_recurrence (policy : List ℕ)
    (T : ℕ → ℕ → ℕ → ℚ) (t_max : ℕ) (s0 s : ℕ) :
    calculate_state_distribution policy T t_max s0 s 0
        = (if s = s0 then 1 else 0) ∧
    ∀ t, 1 ≤ t → t ≤ t_max →
      calculate_state_distribution policy T t_max s0 s t
        = ∑ j ∈ Finset.range policy.length,
            T (policy.getD j 0) j s *
              calculate_state_distribution policy T t_max s0 j (t - 1) := by
  constructor
  · rfl
  · intro t ht htm
    obtain ⟨k, rfl⟩ : ∃ k, t = k + 1 := ⟨t - 1, by omega⟩
    simp only [calculate_state_distribution, rhoSeq, rhoStep, policyMatrix,
      Nat.add_sub_cancel]

/-- Witness for C6: one propagation step of the all-stay policy on the
3-state model with `n_sides = 1`, `max_score = 1`. -/
theorem calculate_state_distribution_recurrence_witness :
    calculate_state_distribution [1, 1, 1] (make_transition_matrix 1 1)
        2 0 2 1
      = ∑ j ∈ Finset.range (List.length [1, 1, 1]),
          make_transition_matrix 1 1 (List.getD [1, 1, 1] j 0) j 2 *
            calculate_state_distribution [1, 1, 1] (make_transition_matrix 1 1)
              2 0 j (1 - 1) :=
  (calculate_state_distribution_recurrence [1, 1, 1]
    (make_transition_matrix 1 1) 2 0 2).2 1 (by norm_num) (by norm_num)

end MdpDemo
